import Mathlib

/-!
Verification of the arithmetic core of `contextual_visualizer.py`.

The program's computations are modelled over `ℚ`.  Python's built-in
`round` rounds to the nearest integer with ties going to the even
integer (banker's rounding); it is modelled exactly by `pyround`.
The expression `round(x ** 0.5)` applied to a nonnegative quantity is
modelled by `roundSqrt`, a computable function on `ℚ` that is proved
below to round the real square root to the nearest natural number
(ties to even).
-/

namespace ContextualVisualizer

/-- Python's `round` on an exact rational value: round to the nearest
integer, ties to the even integer. -/
def pyround (q : ℚ) : ℤ :=
  if q - ⌊q⌋ < 1/2 then ⌊q⌋
  else if 1/2 < q - ⌊q⌋ then ⌊q⌋ + 1
  else if ⌊q⌋ % 2 = 0 then ⌊q⌋ else ⌊q⌋ + 1

/-- Python's `round(q ** 0.5)` for `q > 0`, computed exactly on `ℚ`:
the natural number nearest to `√q`, ties to even.  For `q ≤ 0` the
(unused) value is `0`. -/
def roundSqrt (q : ℚ) : ℕ :=
  if q ≤ 0 then 0
  else if (Nat.sqrt (⌊4 * q⌋).toNat) % 2 = 1 ∧
          ((Nat.sqrt (⌊4 * q⌋).toNat : ℚ))^2 = 4 * q then
    -- `√q = s/2` exactly with `s` odd: a tie; pick the even neighbour
    if ((Nat.sqrt (⌊4 * q⌋).toNat - 1) / 2) % 2 = 0
      then (Nat.sqrt (⌊4 * q⌋).toNat - 1) / 2
      else (Nat.sqrt (⌊4 * q⌋).toNat + 1) / 2
  else (Nat.sqrt (⌊4 * q⌋).toNat + 1) / 2

/-! Basic properties of `pyround`. -/

theorem pyround_le (q : ℚ) : (pyround q : ℚ) ≤ q + 1/2 := by
  unfold pyround
  have h1 : (⌊q⌋ : ℚ) ≤ q := Int.floor_le q
  have h2 : q < ⌊q⌋ + 1 := Int.lt_floor_add_one q
  split_ifs <;> push_cast <;> linarith

theorem le_pyround (q : ℚ) : q - 1/2 ≤ (pyround q : ℚ) := by
  unfold pyround
  have h1 : (⌊q⌋ : ℚ) ≤ q := Int.floor_le q
  have h2 : q < ⌊q⌋ + 1 := Int.lt_floor_add_one q
  split_ifs <;> push_cast <;> linarith

theorem floor_le_pyround (q : ℚ) : ⌊q⌋ ≤ pyround q := by
  unfold pyround
  split_ifs <;> omega

theorem pyround_le_floor_add_one (q : ℚ) : pyround q ≤ ⌊q⌋ + 1 := by
  unfold pyround
  split_ifs <;> omega

theorem pyround_mono {q q' : ℚ} (h : q ≤ q') : pyround q ≤ pyround q' := by
  rcases lt_or_eq_of_le (Int.floor_mono h) with hf | hf
  · calc pyround q ≤ ⌊q⌋ + 1 := pyround_le_floor_add_one q
    _ ≤ ⌊q'⌋ := by omega
    _ ≤ pyround q' := floor_le_pyround q'
  · unfold pyround
    rw [← hf]
    split_ifs <;> first | omega | (exfalso; push_cast at *; linarith)

theorem pyround_intCast (n : ℤ) : pyround (n : ℚ) = n := by
  unfold pyround
  rw [Int.floor_intCast]
  norm_num

theorem pyround_natCast (n : ℕ) : pyround (n : ℚ) = n := by
  have := pyround_intCast (n : ℤ)
  push_cast at this ⊢
  exact this

theorem one_le_pyround {q : ℚ} (h : 1/2 < q) : 1 ≤ pyround q := by
  have hb := le_pyround q
  by_contra hc
  push_neg at hc
  have : pyround q ≤ 0 := by omega
  have : (pyround q : ℚ) ≤ 0 := by exact_mod_cast this
  linarith

/-! Basic properties of `roundSqrt`. -/

theorem roundSqrt_upper {q : ℚ} (hq : 0 < q) :
    4 * q ≤ (2 * (roundSqrt q : ℚ) + 1)^2 := by
  unfold roundSqrt
  rw [if_neg (not_le.2 hq)]
  have hfl : (0:ℤ) ≤ ⌊4 * q⌋ := by positivity
  set s : ℕ := Nat.sqrt (⌊4 * q⌋).toNat with hs
  have hcast : (((⌊4 * q⌋).toNat : ℕ) : ℚ) = ((⌊4 * q⌋ : ℤ) : ℚ) := by
    exact_mod_cast congrArg (fun z : ℤ => (z : ℚ)) (Int.toNat_of_nonneg hfl)
  have hmgt : 4 * q < (((⌊4 * q⌋).toNat : ℕ) : ℚ) + 1 := by
    rw [hcast]; exact Int.lt_floor_add_one _
  have hslt : (⌊4 * q⌋).toNat < (s + 1)^2 := Nat.lt_succ_sqrt' _
  have hsltQ : 4 * q < ((s : ℚ) + 1)^2 := by
    have h1 : ((⌊4 * q⌋).toNat : ℚ) + 1 ≤ (((s + 1)^2 : ℕ) : ℚ) := by
      exact_mod_cast hslt
    push_cast at h1
    nlinarith
  split_ifs with htie hev
  · -- tie, even candidate `(s-1)/2`
    obtain ⟨hodd, heq⟩ := htie
    have h2v : 2 * (((s - 1) / 2 : ℕ) : ℚ) + 1 = (s : ℚ) := by
      have hnat : 2 * ((s - 1) / 2) + 1 = s := by omega
      exact_mod_cast hnat
    rw [h2v]
    nlinarith [heq]
  · -- tie, odd candidate `(s+1)/2`
    obtain ⟨hodd, heq⟩ := htie
    have h2v : 2 * (((s + 1) / 2 : ℕ) : ℚ) = (s : ℚ) + 1 := by
      have hnat : 2 * ((s + 1) / 2) = s + 1 := by omega
      exact_mod_cast hnat
    nlinarith [heq, h2v]
  · -- no tie: value `(s+1)/2`
    have h2v : (s : ℚ) ≤ 2 * (((s + 1) / 2 : ℕ) : ℚ) := by
      have hnat : s ≤ 2 * ((s + 1) / 2) := by omega
      exact_mod_cast hnat
    nlinarith

theorem roundSqrt_lower {q : ℚ} (hq : 0 < q) (h1 : 1 ≤ roundSqrt q) :
    (2 * (roundSqrt q : ℚ) - 1)^2 ≤ 4 * q := by
  unfold roundSqrt at h1 ⊢
  rw [if_neg (not_le.2 hq)] at h1 ⊢
  have hfl : (0:ℤ) ≤ ⌊4 * q⌋ := by positivity
  set s : ℕ := Nat.sqrt (⌊4 * q⌋).toNat with hs
  have hcast : (((⌊4 * q⌋).toNat : ℕ) : ℚ) = ((⌊4 * q⌋ : ℤ) : ℚ) := by
    exact_mod_cast congrArg (fun z : ℤ => (z : ℚ)) (Int.toNat_of_nonneg hfl)
  have hmle : (((⌊4 * q⌋).toNat : ℕ) : ℚ) ≤ 4 * q := by
    rw [hcast]; exact Int.floor_le _
  have hsle : s^2 ≤ (⌊4 * q⌋).toNat := Nat.sqrt_le' _
  have hsleQ : ((s : ℚ))^2 ≤ 4 * q := by
    have h2 : (((s^2 : ℕ)) : ℚ) ≤ (((⌊4 * q⌋).toNat : ℕ) : ℚ) := by
      exact_mod_cast hsle
    push_cast at h2
    nlinarith
  split_ifs at h1 ⊢ with htie hev
  · -- tie, even candidate `(s-1)/2`
    obtain ⟨hodd, heq⟩ := htie
    have hge : 1 ≤ (s - 1) / 2 := h1
    have hs3 : 3 ≤ s := by omega
    have h2v : 2 * (((s - 1) / 2 : ℕ) : ℚ) + 1 = (s : ℚ) := by
      have hnat : 2 * ((s - 1) / 2) + 1 = s := by omega
      exact_mod_cast hnat
    have h2vQ : 2 * (((s - 1) / 2 : ℕ) : ℚ) - 1 = (s : ℚ) - 2 := by linarith
    rw [h2vQ, ← heq]
    have hsQ : (3 : ℚ) ≤ (s : ℚ) := by exact_mod_cast hs3
    nlinarith
  · -- tie, odd candidate `(s+1)/2`
    obtain ⟨hodd, heq⟩ := htie
    have h2v : 2 * (((s + 1) / 2 : ℕ) : ℚ) = (s : ℚ) + 1 := by
      have hnat : 2 * ((s + 1) / 2) = s + 1 := by omega
      exact_mod_cast hnat
    have h2vQ : 2 * (((s + 1) / 2 : ℕ) : ℚ) - 1 = (s : ℚ) := by linarith
    rw [h2vQ, ← heq]
  · -- no tie: value `(s+1)/2`
    have hvpos : 1 ≤ (s + 1) / 2 := h1
    have h2v : 2 * (((s + 1) / 2 : ℕ) : ℚ) - 1 ≤ (s : ℚ) := by
      have hnat : 2 * ((s + 1) / 2) ≤ s + 1 := by omega
      have h3 : ((2 * ((s + 1) / 2) : ℕ) : ℚ) ≤ ((s + 1 : ℕ) : ℚ) := by
        exact_mod_cast hnat
      push_cast at h3
      linarith
    have hnn : (0 : ℚ) ≤ 2 * (((s + 1) / 2 : ℕ) : ℚ) - 1 := by
      have h4 : (1 : ℚ) ≤ (((s + 1) / 2 : ℕ) : ℚ) := by exact_mod_cast hvpos
      linarith
    nlinarith

theorem one_le_roundSqrt {q : ℚ} (hq : 1/4 < q) : 1 ≤ roundSqrt q := by
  by_contra h0
  have h0' : roundSqrt q = 0 := by omega
  have := roundSqrt_upper (by linarith : (0:ℚ) < q)
  rw [h0'] at this
  norm_num at this
  linarith

/-! Evaluation lemmas: they pin down `pyround` and `roundSqrt` at a concrete
argument from rational inequalities that `norm_num` can check. -/

theorem pyround_eq_of {q : ℚ} (n : ℤ) (hlo : (n : ℚ) - 1/2 < q)
    (hhi : q < (n : ℚ) + 1/2) : pyround q = n := by
  have h1 := le_pyround q
  have h2 := pyround_le q
  have h3 : (n : ℚ) - 1 < ((pyround q : ℤ) : ℚ) := by linarith
  have h4 : ((pyround q : ℤ) : ℚ) < (n : ℚ) + 1 := by linarith
  have h3' : n - 1 < pyround q := by exact_mod_cast h3
  have h4' : pyround q < n + 1 := by exact_mod_cast h4
  omega

theorem pyround_eq_of_tie_even {q : ℚ} (n : ℤ) (heven : n % 2 = 0)
    (heq : q = (n : ℚ) + 1/2) : pyround q = n := by
  subst heq
  have hf : ⌊(n : ℚ) + 1/2⌋ = n := by
    rw [Int.floor_eq_iff]
    exact ⟨by linarith, by linarith⟩
  unfold pyround
  rw [hf]
  have harg : (n : ℚ) + 1/2 - (n : ℤ) = 1/2 := by norm_num
  rw [harg]
  norm_num [heven]

theorem roundSqrt_eq_of {q : ℚ} (n : ℕ) (hq : 0 < q)
    (hlo : n = 0 ∨ (2 * (n : ℚ) - 1)^2 < 4 * q)
    (hhi : 4 * q < (2 * (n : ℚ) + 1)^2) : roundSqrt q = n := by
  have hup := roundSqrt_upper hq
  -- `roundSqrt q ≤ n`
  have hle : roundSqrt q ≤ n := by
    by_cases h0 : roundSqrt q = 0
    · simp [h0]
    · have h1 : 1 ≤ roundSqrt q := by omega
      have hlow := roundSqrt_lower hq h1
      have h1Q : (1 : ℚ) ≤ (roundSqrt q : ℚ) := by exact_mod_cast h1
      have hlt : 2 * (roundSqrt q : ℚ) - 1 < 2 * (n : ℚ) + 1 := by
        nlinarith [sq_nonneg (2 * (roundSqrt q : ℚ) - 1), sq_nonneg (2 * (n : ℚ) + 1)]
      have : (roundSqrt q : ℚ) < (n : ℚ) + 1 := by linarith
      have := (by exact_mod_cast this : roundSqrt q < n + 1)
      omega
  -- `n ≤ roundSqrt q`
  have hge : n ≤ roundSqrt q := by
    rcases hlo with h0 | hstrict
    · omega
    · have hlt : 2 * (n : ℚ) - 1 < 2 * (roundSqrt q : ℚ) + 1 := by
        nlinarith [sq_nonneg (2 * (n : ℚ) - 1), sq_nonneg (2 * (roundSqrt q : ℚ) + 1)]
      have : (n : ℚ) < (roundSqrt q : ℚ) + 1 := by linarith
      have := (by exact_mod_cast this : n < roundSqrt q + 1)
      omega
  omega

/-- `roundSqrt` really does round the real square root: it is within `1/2`
of `√q`. -/
theorem roundSqrt_dist_sqrt {q : ℚ} (hq : 0 < q) :
    |(roundSqrt q : ℝ) - Real.sqrt (q : ℝ)| ≤ 1/2 := by
  have hqR : (0 : ℝ) < (q : ℝ) := by exact_mod_cast hq
  have hsqrt4 : Real.sqrt (4 * (q : ℝ)) = 2 * Real.sqrt (q : ℝ) := by
    rw [show (4 : ℝ) * (q : ℝ) = 2^2 * (q : ℝ) by ring,
        Real.sqrt_mul (by positivity), Real.sqrt_sq (by norm_num)]
  have hup := roundSqrt_upper hq
  have hupR : 4 * (q : ℝ) ≤ (2 * (roundSqrt q : ℝ) + 1)^2 := by exact_mod_cast hup
  have hupS : 2 * Real.sqrt (q : ℝ) ≤ 2 * (roundSqrt q : ℝ) + 1 := by
    rw [← hsqrt4]
    calc Real.sqrt (4 * (q : ℝ)) ≤ Real.sqrt ((2 * (roundSqrt q : ℝ) + 1)^2) :=
          Real.sqrt_le_sqrt hupR
    _ = 2 * (roundSqrt q : ℝ) + 1 := Real.sqrt_sq (by positivity)
  rw [abs_le]
  constructor
  · linarith
  · -- `roundSqrt q - √q ≤ 1/2`
    by_cases h0 : roundSqrt q = 0
    · have : Real.sqrt (q : ℝ) ≥ 0 := Real.sqrt_nonneg _
      rw [h0]
      push_cast
      linarith
    · have h1 : 1 ≤ roundSqrt q := by omega
      have hlow := roundSqrt_lower hq h1
      have hlowR : (2 * (roundSqrt q : ℝ) - 1)^2 ≤ 4 * (q : ℝ) := by exact_mod_cast hlow
      have h1R : (1 : ℝ) ≤ (roundSqrt q : ℝ) := by exact_mod_cast h1
      have hlowS : 2 * (roundSqrt q : ℝ) - 1 ≤ 2 * Real.sqrt (q : ℝ) := by
        rw [← hsqrt4, ← Real.sqrt_sq (by linarith : (0:ℝ) ≤ 2 * (roundSqrt q : ℝ) - 1)]
        exact Real.sqrt_le_sqrt hlowR
      linarith


/-! ### Constants (module level of `contextual_visualizer.py`) -/

def DAILY_BIRTHS : ℕ := 385000

def DAILY_DEATHS : ℕ := 165000

/-- Ratio of sun's diameter to earth's orbital diameter. -/
def S_TO_EO_DIAMETER_RATIO : ℚ := 211.60

/-! ### `create_ratio_visualization` (the grid planner) -/

/-- `aspect_ratio = screen_width / screen_height` (line 203). -/
def aspect_ratio (screen_width screen_height : ℚ) : ℚ := screen_width / screen_height

/-- `gridheight = round((ratio/aspect_ratio)**0.5)` (line 204). -/
def gridheight (ratio aspect : ℚ) : ℕ := roundSqrt (ratio / aspect)

/-- `gridwidth = round(aspect_ratio*gridheight)` (line 205). -/
def gridwidth (ratio aspect : ℚ) : ℤ := pyround (aspect * (gridheight ratio aspect : ℚ))

/-- `use_scrollers = True if gridheight > 0.45*screen_height else False` (line 206). -/
def use_scrollers (ratio screen_width screen_height : ℚ) : Bool :=
  decide (((gridheight ratio (aspect_ratio screen_width screen_height)) : ℚ)
    > 0.45 * screen_height)

/-- `inset_width = round(subratio**0.5) if subratio else 0` (line 207); `none`
models passing `subratio=None`. -/
def inset_width (subratio : Option ℚ) : ℕ :=
  match subratio with
  | some s => roundSqrt s
  | none => 0

/-- The dimensions handed by `create_ratio_visualization` to `draw_canvas_grid`. -/
structure GridPlan where
  width : ℤ
  height : ℕ
  scrollers : Bool
  inset : ℕ
deriving DecidableEq

def create_ratio_visualization (ratio : ℚ) (subratio : Option ℚ)
    (screen_width screen_height : ℚ) : GridPlan :=
  { width := gridwidth ratio (aspect_ratio screen_width screen_height)
    height := gridheight ratio (aspect_ratio screen_width screen_height)
    scrollers := use_scrollers ratio screen_width screen_height
    inset := inset_width subratio }

/-! ### `draw_earth_sun_diagram` -/

/-- `orbital_diameter = round(8 * S_TO_EO_DIAMETER_RATIO)` (line 153). -/
def orbital_diameter : ℤ := pyround (8 * S_TO_EO_DIAMETER_RATIO)

/-- `orbital_radius = round(orbital_diameter/2)` (line 154). -/
def orbital_radius : ℤ := pyround ((orbital_diameter : ℚ) / 2)

/-- Corner coordinates of an oval drawn with `create_oval` / `ImageDraw.ellipse`. -/
structure Oval where
  x0 : ℤ
  y0 : ℤ
  x1 : ℤ
  y1 : ℤ
deriving DecidableEq

/-- The orbit circle (line 164): `create_oval(4, 4, 4+orbital_diameter, 4+orbital_diameter)`. -/
def orbit_oval : Oval := ⟨4, 4, 4 + orbital_diameter, 4 + orbital_diameter⟩

/-- The earth disc (line 166):
`create_oval(orbital_radius, orbital_radius, orbital_radius+8, orbital_radius+8)`. -/
def earth_oval : Oval := ⟨orbital_radius, orbital_radius, orbital_radius + 8, orbital_radius + 8⟩

/-- The scrollbar condition of `draw_earth_sun_diagram` (line 171):
`orbital_diameter > 0.86*screenheight or orbital_diameter > 0.96*screenwidth`. -/
def earth_sun_use_scrollers (screen_width screen_height : ℚ) : Bool :=
  decide ((orbital_diameter : ℚ) > 0.86 * screen_height
    ∨ (orbital_diameter : ℚ) > 0.96 * screen_width)

/-! ### `create_spatial_visualizations` and its validation wrapper -/

/-- House-area unit conversion (lines 244-248): `sq. feet` and `sq. yards` are
scaled; any other unit string (the menu offers `sq. meters`) is used as is. -/
def convert_house_area (v : ℚ) (unit : String) : ℚ :=
  if unit = "sq. feet" then v * 0.092903
  else if unit = "sq. yards" then v * 0.836127
  else v

/-- City-area unit conversion (lines 250-254): `sq. miles` is scaled by
`2.58999 * 1000000`; any other unit string (the menu offers `sq. kms`) by
`1000000`. -/
def convert_city_area (v : ℚ) (unit : String) : ℚ :=
  if unit = "sq. miles" then v * 2.58999 * 1000000
  else v * 1000000

/-- `world_area = 510072000 * 1000000` (line 256). -/
def world_area : ℚ := 510072000 * 1000000

/-- The `country_areas` dictionary (lines 362-412), in source order, areas in
square kilometers. -/
def country_areas : List (String × ℚ) :=
  [("Russia", 17098242), ("Canada", 9984670), ("China", 9706961), ("United States", 9372610),
   ("Brazil", 8515767), ("Australia", 7692024), ("India", 3287590), ("Argentina", 2780400),
   ("Kazakhstan", 2724900), ("Algeria", 2381741), ("DR Congo", 2344858), ("Greenland", 2166086),
   ("Saudi Arabia", 2149690), ("Mexico", 1964375), ("Indonesia", 1904569), ("Sudan", 1886068),
   ("Libya", 1759540), ("Iran", 1648195), ("Mongolia", 1564110), ("Peru", 1285216),
   ("Chad", 1284000), ("Niger", 1267000), ("Angola", 1246700), ("Mali", 1240192),
   ("South Africa", 1221037), ("Colombia", 1141748), ("Ethiopia", 1104300),
   ("Bolivia", 1098581), ("Mauritania", 1030700), ("Egypt", 1002450), ("Tanzania", 945087),
   ("Nigeria", 923768), ("Venezuela", 916445), ("Pakistan", 881912), ("Namibia", 825615),
   ("Mozambique", 801590), ("Turkey", 783562), ("Chile", 756102), ("Zambia", 752612),
   ("Myanmar", 676578), ("Afghanistan", 652230), ("Somalia", 637657),
   ("Central African Republic", 622984), ("South Sudan", 619745), ("Ukraine", 603500),
   ("Madagascar", 587041), ("Botswana", 582000), ("Kenya", 580367), ("France", 551695),
   ("Yemen", 527968), ("Thailand", 513120), ("Spain", 505992), ("Turkmenistan", 488100),
   ("Cameroon", 475442), ("Papua New Guinea", 462840), ("Sweden", 450295),
   ("Uzbekistan", 447400), ("Morocco", 446550), ("Iraq", 438317), ("Paraguay", 406752),
   ("Zimbabwe", 390757), ("Japan", 377930), ("Germany", 357114), ("Philippines", 342353),
   ("Congo", 342000), ("Finland", 338424), ("Vietnam", 331212), ("Malaysia", 330803),
   ("Norway", 323802), ("Cote d'Ivoire", 322463), ("Poland", 312679), ("Oman", 309500),
   ("Italy", 301336), ("Ecuador", 276841), ("Burkina Faso", 272967), ("New Zealand", 270467),
   ("Gabon", 267668), ("Western Sahara", 266000), ("Guinea", 245857),
   ("United Kingdom", 242900), ("Uganda", 241550), ("Ghana", 238533), ("Romania", 238391),
   ("Laos", 236800), ("Guyana", 214969), ("Belarus", 207600), ("Kyrgyzstan", 199951),
   ("Senegal", 196722), ("Syria", 185180), ("Cambodia", 181035), ("Uruguay", 181034),
   ("Suriname", 163820), ("Tunisia", 163610), ("Bangladesh", 147570), ("Nepal", 147181),
   ("Tajikistan", 143100), ("Greece", 131990), ("Nicaragua", 130373), ("North Korea", 120538),
   ("Malawi", 118484), ("Eritrea", 117600), ("Benin", 112622), ("Honduras", 112492),
   ("Liberia", 111369), ("Bulgaria", 110879), ("Cuba", 109884), ("Guatemala", 108889),
   ("Iceland", 103000), ("South Korea", 100210), ("Hungary", 93028), ("Portugal", 92090),
   ("Jordan", 89342), ("Serbia", 88361), ("Azerbaijan", 86600), ("Austria", 83871),
   ("United Arab Emirates", 83600), ("French Guiana", 83534), ("Czechia", 78865),
   ("Panama", 75417), ("Sierra Leone", 71740), ("Ireland", 70273), ("Georgia", 69700),
   ("Sri Lanka", 65610), ("Lithuania", 65300), ("Latvia", 64559), ("Togo", 56785),
   ("Croatia", 56594), ("Bosnia and Herzegovina", 51209), ("Costa Rica", 51100),
   ("Slovakia", 49037), ("Dominican Republic", 48671), ("Estonia", 45227), ("Denmark", 43094),
   ("Netherlands", 41850), ("Switzerland", 41284), ("Bhutan", 38394), ("Taiwan", 36193),
   ("Guinea-Bissau", 36125), ("Moldova", 33846), ("Belgium", 30528), ("Lesotho", 30355),
   ("Armenia", 29743), ("Solomon Islands", 28896), ("Albania", 28748),
   ("Equatorial Guinea", 28051), ("Burundi", 27834), ("Haiti", 27750), ("Rwanda", 26338),
   ("Republic of North Macedonia", 25713), ("Djibouti", 23200), ("Belize", 22966),
   ("El Salvador", 21041), ("Israel", 20770), ("Slovenia", 20273), ("New Caledonia", 18575),
   ("Fiji", 18272), ("Kuwait", 17818), ("Eswatini", 17364), ("Timor-Leste", 14874),
   ("Bahamas", 13943), ("Montenegro", 13812), ("Vanuatu", 12189), ("Falkland Islands", 12173),
   ("Qatar", 11586), ("Jamaica", 10991), ("Gambia", 10689), ("Lebanon", 10452),
   ("Cyprus", 9251), ("Puerto Rico", 8870), ("State of Palestine", 6220),
   ("Brunei Darussalam", 5765), ("Trinidad and Tobago", 5130), ("French Polynesia", 4167),
   ("Cabo Verde", 4033), ("Samoa", 2842), ("Luxembourg", 2586), ("Reunion", 2511),
   ("Mauritius", 2040), ("Comoros", 1862), ("Guadeloupe", 1628), ("Faeroe Islands", 1393),
   ("Martinique", 1128), ("Sao Tome and Principe", 964), ("Turks and Caicos Islands", 948),
   ("Kiribati", 811), ("Bahrain", 765), ("Dominica", 751), ("Tonga", 747), ("Singapore", 710),
   ("Micronesia", 702), ("Saint Lucia", 616), ("Isle of Man", 572), ("Guam", 549),
   ("Andorra", 468), ("Northern Mariana Islands", 464), ("Palau", 459), ("Seychelles", 452),
   ("Curacao", 444), ("Antigua and Barbuda", 442), ("Barbados", 430), ("Saint Helena", 394),
   ("Saint Vincent and the Grenadines", 389), ("Mayotte", 374),
   ("United States Virgin Islands", 347), ("Grenada", 344), ("Caribbean Netherlands", 328),
   ("Malta", 316), ("Maldives", 300), ("Cayman Islands", 264), ("Saint Kitts and Nevis", 261),
   ("Niue", 260), ("Saint Pierre and Miquelon", 242), ("Cook Islands", 236),
   ("American Samoa", 199), ("Marshall Islands", 181), ("Aruba", 180), ("Liechtenstein", 160),
   ("British Virgin Islands", 151), ("Wallis and Futuna Islands", 142), ("Montserrat", 102),
   ("Anguilla", 91), ("San Marino", 61), ("Bermuda", 54), ("Saint Martin", 53),
   ("Sint Maarten", 34), ("Tuvalu", 26), ("Nauru", 21), ("Saint Barthelemy", 21),
   ("Tokelau", 12), ("Gibraltar", 6), ("Monaco", 2)]

/-- `countries_list = sorted(country_areas.keys())` (line 414). -/
def countries_list : List String :=
  (country_areas.map Prod.fst).mergeSort (fun a b => decide (a ≤ b))

/-- The state of the spatial form when the Visualize button is pressed.  The
two entry fields hold text; `float(...)` either parses them to a number or
raises, which is modelled by `Option`: `some v` when `float` returns `v`. -/
structure RawForm where
  entry_HA : Option ℚ
  entry_CA : Option ℚ
  ha_unit : String
  ca_unit : String
  country : String

/-- The three ratios computed by `create_spatial_visualizations` and passed to
`create_ratio_visualization` (lines 258-264). -/
structure SpatialOutputs where
  h_to_c : ℤ
  c_to_w : ℤ
  c_to_c : ℤ
deriving DecidableEq

/-- `create_spatial_visualizations` (lines 237-266): converts the areas and
computes the three ratios.  `none` models the uncaught exceptions this
function can raise when called with an unvalidated form (`ValueError` from
`float`, `KeyError` from the dictionary lookup). -/
def create_spatial_visualizations (f : RawForm) : Option SpatialOutputs :=
  match f.entry_HA, f.entry_CA with
  | some hv, some cv =>
    match country_areas.lookup f.country with
    | some ca =>
      some { h_to_c := pyround (convert_city_area cv f.ca_unit / convert_house_area hv f.ha_unit)
             c_to_w := pyround (world_area / convert_city_area cv f.ca_unit)
             c_to_c := pyround (ca * 1000000 / convert_city_area cv f.ca_unit) }
    | none => none
  | _, _ => none

/-- Result of pressing the Visualize button: either a single warning dialog,
or the visualizations (`crash` marks the unreachable unvalidated branch). -/
inductive VisResult where
  | warning (msg : String)
  | visualized (o : SpatialOutputs)
  | crash
deriving DecidableEq

/-- `validate_form_and_create_spatial_visualizations` (lines 269-289). -/
def validate_form_and_create_spatial_visualizations (f : RawForm) : VisResult :=
  match f.entry_HA, f.entry_CA with
  | some v1, some v2 =>
    if v1 ≤ 0 ∨ v2 ≤ 0 then .warning "Please enter positive area values"
    else if f.country ∉ countries_list then
      .warning "Please select a country-name from the dropdown list"
    else
      match create_spatial_visualizations f with
      | some o => .visualized o
      | none => .crash
  | _, _ => .warning "Please enter numeric area values"

/-- Hourly births shown in the population inset: `DAILY_BIRTHS//24` (line 303). -/
def hourly_births : ℕ := DAILY_BIRTHS / 24

/-- Hourly deaths shown in the population inset: `DAILY_DEATHS//24` (line 306). -/
def hourly_deaths : ℕ := DAILY_DEATHS / 24

/-! ### The specification-side contract

`computeAreaRatio` is the spec's `RatioCalculator` contract, written from the
spec's words (`round(numeratorArea_m2 / denominatorArea_m2)`), to be compared
with the ratios the code computes. -/

/-- Spec contract: `computeAreaRatio(numeratorArea_m2, denominatorArea_m2) ->
Ratio`, defined as `round(numeratorArea_m2 / denominatorArea_m2)`. -/
def computeAreaRatio (num den : ℚ) : ℤ := pyround (num / den)

/-! ### Shared evaluation facts -/

theorem orbital_diameter_eval : orbital_diameter = 1693 := by
  unfold orbital_diameter S_TO_EO_DIAMETER_RATIO
  exact pyround_eq_of 1693 (by norm_num) (by norm_num)

theorem orbital_radius_eval : orbital_radius = 846 := by
  unfold orbital_radius
  rw [orbital_diameter_eval]
  exact pyround_eq_of_tie_even 846 (by norm_num) (by norm_num)

theorem gridheight_100_2_eval : gridheight 100 2 = 7 := by
  unfold gridheight
  exact roundSqrt_eq_of 7 (by norm_num) (Or.inr (by norm_num)) (by norm_num)

/-! ### Claims -/

/-- C8: the Earth/Sun diagram uses `orbital_diameter = round(8 * 211.60) =
1693` units and `orbital_radius = round(1693 / 2) = 846` units, draws the
Earth disc at a fixed 8-unit diameter, and the Earth-disc-diameter to
orbital-diameter quotient is below `0.01`. -/
theorem earth_sun_diagram_constants :
    orbital_diameter = pyround (8 * S_TO_EO_DIAMETER_RATIO) ∧
    orbital_diameter = 1693 ∧
    orbital_radius = pyround ((orbital_diameter : ℚ) / 2) ∧
    orbital_radius = 846 ∧
    earth_oval.x1 - earth_oval.x0 = 8 ∧
    earth_oval.y1 - earth_oval.y0 = 8 ∧
    ((earth_oval.x1 - earth_oval.x0 : ℤ) : ℚ) / ((orbital_diameter : ℤ) : ℚ) < 1/100 := by
  refine ⟨rfl, orbital_diameter_eval, rfl, orbital_radius_eval, ?_, ?_, ?_⟩
  · unfold earth_oval; ring
  · unfold earth_oval; ring
  · have h8 : earth_oval.x1 - earth_oval.x0 = 8 := by unfold earth_oval; ring
    rw [h8, orbital_diameter_eval]
    norm_num

/-- C6 counterexample: there are screen dimensions (width 1500, height 2000)
at which the Earth/Sun window enables scrollbars although the drawn diameter
does not exceed 0.86 of the screen height; the decision there is not of the
form `height > 0.86 * screenHeight`. -/
theorem earth_sun_overflow_not_height_only :
    earth_sun_use_scrollers 1500 2000 = true ∧
    ¬ ((orbital_diameter : ℚ) > 0.86 * 2000) := by
  constructor
  · unfold earth_sun_use_scrollers
    rw [orbital_diameter_eval]
    norm_num
  · rw [orbital_diameter_eval]
    norm_num

/-- C6 (amended): the pixel-grid path enables scroll affordances exactly when
the computed grid height exceeds `0.45 * screenHeight`, while the Earth/Sun
diagram enables them exactly when the orbital diameter exceeds
`0.86 * screenHeight` OR exceeds `0.96 * screenWidth` (so the two call sites
use differing height thresholds, 0.45 and 0.86, and the second also checks
the screen width). -/
theorem overflow_decisions (ratio screen_width screen_height : ℚ) :
    (use_scrollers ratio screen_width screen_height = true ↔
      ((gridheight ratio (aspect_ratio screen_width screen_height) : ℚ)
        > 0.45 * screen_height)) ∧
    (earth_sun_use_scrollers screen_width screen_height = true ↔
      ((orbital_diameter : ℚ) > 0.86 * screen_height
        ∨ (orbital_diameter : ℚ) > 0.96 * screen_width)) := by
  constructor
  · unfold use_scrollers
    exact decide_eq_true_iff
  · unfold earth_sun_use_scrollers
    exact decide_eq_true_iff

/-- C5 counterexample: `round(a / b)` is not strictly decreasing in the
denominator: with `a = 10`, increasing the denominator from 4 to 5 leaves the
ratio unchanged at 2. -/
theorem computeAreaRatio_not_strictly_decreasing :
    (0 : ℚ) < 10 ∧ (0 : ℚ) < 4 ∧ (4 : ℚ) < 5 ∧
    computeAreaRatio 10 4 = 2 ∧ computeAreaRatio 10 5 = 2 ∧
    ¬ (computeAreaRatio 10 5 < computeAreaRatio 10 4) := by
  have e1 : computeAreaRatio 10 4 = 2 := by
    unfold computeAreaRatio
    exact pyround_eq_of_tie_even 2 (by norm_num) (by norm_num)
  have e2 : computeAreaRatio 10 5 = 2 := by
    unfold computeAreaRatio
    exact pyround_eq_of 2 (by norm_num) (by norm_num)
  refine ⟨by norm_num, by norm_num, by norm_num, e1, e2, ?_⟩
  rw [e1, e2]
  omega

/-- C5 (amended): for fixed positive numerator the ratio `round(a / b)` is
non-increasing (not strictly decreasing) in the positive denominator, and for
fixed positive denominator it is non-decreasing in the numerator. -/
theorem computeAreaRatio_monotone :
    (∀ a b b' : ℚ, 0 ≤ a → 0 < b → b ≤ b' →
      computeAreaRatio a b' ≤ computeAreaRatio a b) ∧
    (∀ a a' b : ℚ, 0 < b → a ≤ a' →
      computeAreaRatio a b ≤ computeAreaRatio a' b) := by
  constructor
  · intro a b b' ha hb hbb
    unfold computeAreaRatio
    apply pyround_mono
    gcongr
  · intro a a' b hb haa
    unfold computeAreaRatio
    apply pyround_mono
    gcongr

theorem computeAreaRatio_monotone_witness :
    ((0 : ℚ) ≤ 10 ∧ (0 : ℚ) < 4 ∧ (4 : ℚ) ≤ 5 ∧ (10 : ℚ) ≤ 12) ∧
    computeAreaRatio 10 5 ≤ computeAreaRatio 10 4 ∧
    computeAreaRatio 10 4 ≤ computeAreaRatio 12 4 :=
  ⟨⟨by norm_num, by norm_num, by norm_num, by norm_num⟩,
   computeAreaRatio_monotone.1 10 4 5 (by norm_num) (by norm_num) (by norm_num),
   computeAreaRatio_monotone.2 10 12 4 (by norm_num) (by norm_num)⟩

/-- C10: unit conversion is total and silently defaults: any house-area unit
string other than `sq. feet` and `sq. yards` leaves the magnitude unscaled
(square meters), and any city-area unit string other than `sq. miles` is
scaled by exactly `1000000` (square kilometers); no unit tag is rejected. -/
theorem unit_conversion_defaults (v : ℚ) (hu cu : String)
    (h1 : hu ≠ "sq. feet") (h2 : hu ≠ "sq. yards") (h3 : cu ≠ "sq. miles") :
    convert_house_area v hu = v ∧ convert_city_area v cu = v * 1000000 := by
  unfold convert_house_area convert_city_area
  rw [if_neg h1, if_neg h2, if_neg h3]
  exact ⟨rfl, rfl⟩

theorem unit_conversion_defaults_witness :
    ("sq. cubits" ≠ "sq. feet" ∧ "sq. cubits" ≠ "sq. yards"
      ∧ "sq. leagues" ≠ "sq. miles") ∧
    convert_house_area 7 "sq. cubits" = 7 ∧
    convert_city_area 7 "sq. leagues" = 7 * 1000000 :=
  ⟨⟨by decide, by decide, by decide⟩,
   (unit_conversion_defaults 7 "sq. cubits" "sq. leagues"
      (by decide) (by decide) (by decide)).1,
   (unit_conversion_defaults 7 "sq. cubits" "sq. leagues"
      (by decide) (by decide) (by decide)).2⟩

/-! ### Lookup facts used for the validation claims -/

theorem mem_countries_list_iff {c : String} :
    c ∈ countries_list ↔ c ∈ country_areas.map Prod.fst := by
  unfold countries_list
  exact (List.mergeSort_perm _ _).mem_iff

theorem exists_lookup_of_mem_keys {l : List (String × ℚ)} {c : String}
    (h : c ∈ l.map Prod.fst) : ∃ q, l.lookup c = some q := by
  induction l with
  | nil => simp at h
  | cons p t ih =>
    rw [List.map_cons, List.mem_cons] at h
    by_cases hc : c = p.1
    · exact ⟨p.2, by simp [List.lookup, hc]⟩
    · have hmem : c ∈ t.map Prod.fst := by
        rcases h with h | h
        · exact absurd h hc
        · exact h
      obtain ⟨q, hq⟩ := ih hmem
      exact ⟨q, by simp [List.lookup, beq_eq_false_iff_ne.mpr hc, hq]⟩

/-- C1: for positive converted areas, `create_spatial_visualizations` produces
exactly the spec's `computeAreaRatio` (the rounded quotient) for all three of
the house-to-city, city-to-world and city-to-country ratios. -/
theorem spatial_ratios_are_computeAreaRatio (f : RawForm) (hv cv ca : ℚ)
    (hHA : f.entry_HA = some hv) (hCA : f.entry_CA = some cv)
    (hC : country_areas.lookup f.country = some ca)
    (_hhouse : 0 < convert_house_area hv f.ha_unit)
    (_hcity : 0 < convert_city_area cv f.ca_unit) :
    create_spatial_visualizations f =
      some { h_to_c := computeAreaRatio (convert_city_area cv f.ca_unit)
                         (convert_house_area hv f.ha_unit)
             c_to_w := computeAreaRatio world_area (convert_city_area cv f.ca_unit)
             c_to_c := computeAreaRatio (ca * 1000000)
                         (convert_city_area cv f.ca_unit) } := by
  unfold create_spatial_visualizations computeAreaRatio
  rw [hHA, hCA, hC]

theorem spatial_ratios_are_computeAreaRatio_witness :
    (0 < convert_house_area 1500 "sq. yards" ∧ 0 < convert_city_area 50 "sq. kms") ∧
    create_spatial_visualizations ⟨some 1500, some 50, "sq. yards", "sq. kms", "Russia"⟩ =
      some { h_to_c := computeAreaRatio (convert_city_area 50 "sq. kms")
                         (convert_house_area 1500 "sq. yards")
             c_to_w := computeAreaRatio world_area (convert_city_area 50 "sq. kms")
             c_to_c := computeAreaRatio (17098242 * 1000000)
                         (convert_city_area 50 "sq. kms") } := by
  have hh : (0:ℚ) < convert_house_area 1500 "sq. yards" := by
    unfold convert_house_area
    rw [if_neg (by decide), if_pos (by decide)]
    norm_num
  have hc : (0:ℚ) < convert_city_area 50 "sq. kms" := by
    unfold convert_city_area
    rw [if_neg (by decide)]
    norm_num
  exact ⟨⟨hh, hc⟩,
    spatial_ratios_are_computeAreaRatio
      ⟨some 1500, some 50, "sq. yards", "sq. kms", "Russia"⟩
      1500 50 17098242 rfl rfl rfl hh hc⟩

/-- C7 counterexample: in the worked scenario (house 1500 sq. yards, city
50 sq. km) the code's house-to-city ratio is 39866, not the claimed 39867:
`50000000 / 1254.1905 ≈ 39866.35`, which rounds down. -/
theorem scenario1_ratio_is_39866_not_39867 :
    (create_spatial_visualizations
      ⟨some 1500, some 50, "sq. yards", "sq. kms", "Singapore"⟩).map
        SpatialOutputs.h_to_c = some 39866 ∧ (39866 : ℤ) ≠ 39867 := by
  constructor
  · have hl : country_areas.lookup "Singapore" = some 710 := rfl
    unfold create_spatial_visualizations
    simp only [hl]
    unfold convert_city_area convert_house_area
    rw [if_neg (by decide), if_neg (by decide), if_pos (by decide)]
    norm_num
    exact pyround_eq_of 39866 (by norm_num) (by norm_num)
  · omega

/-- C7 (amended): with house area 1500 sq. yards and city area 50 sq. km, the
converted house area is `1500 * 0.836127 = 1254.1905` m², the city area is
50,000,000 m², and the house-to-city ratio is
`round(50000000 / 1254.1905) = 39866`. -/
theorem scenario1_amended :
    convert_house_area 1500 "sq. yards" = 1500 * 0.836127 ∧
    convert_house_area 1500 "sq. yards" = 1254.1905 ∧
    convert_city_area 50 "sq. kms" = 50000000 ∧
    (create_spatial_visualizations
      ⟨some 1500, some 50, "sq. yards", "sq. kms", "Singapore"⟩).map
        SpatialOutputs.h_to_c = some (pyround (50000000 / 1254.1905)) ∧
    pyround ((50000000 : ℚ) / 1254.1905) = 39866 := by
  have hh : convert_house_area 1500 "sq. yards" = 1254.1905 := by
    unfold convert_house_area
    rw [if_neg (by decide), if_pos (by decide)]
    norm_num
  have hc : convert_city_area 50 "sq. kms" = 50000000 := by
    unfold convert_city_area
    rw [if_neg (by decide)]
    norm_num
  have hp : pyround ((50000000 : ℚ) / 1254.1905) = 39866 :=
    pyround_eq_of 39866 (by norm_num) (by norm_num)
  refine ⟨by rw [hh]; norm_num, hh, hc, ?_, hp⟩
  have hl : country_areas.lookup "Singapore" = some 710 := rfl
  unfold create_spatial_visualizations
  simp only [hl]
  unfold convert_city_area convert_house_area
  rw [if_neg (by decide), if_neg (by decide), if_pos (by decide)]
  norm_num

/-- C9: pressing Visualize with a non-numeric or non-positive area field, or
a country name that is not a key of the country table, aborts with the single
corresponding warning message and computes no ratios and opens no window;
with valid inputs the core computation runs (the validation happens entirely
in the wrapper, before `create_spatial_visualizations`). -/
theorem validate_form_behaviour (f : RawForm) :
    ((f.entry_HA = none ∨ f.entry_CA = none) →
      validate_form_and_create_spatial_visualizations f =
        .warning "Please enter numeric area values") ∧
    (∀ v1 v2 : ℚ, f.entry_HA = some v1 → f.entry_CA = some v2 →
      (v1 ≤ 0 ∨ v2 ≤ 0) →
      validate_form_and_create_spatial_visualizations f =
        .warning "Please enter positive area values") ∧
    (∀ v1 v2 : ℚ, f.entry_HA = some v1 → f.entry_CA = some v2 →
      0 < v1 → 0 < v2 → f.country ∉ countries_list →
      validate_form_and_create_spatial_visualizations f =
        .warning "Please select a country-name from the dropdown list") ∧
    (∀ v1 v2 : ℚ, f.entry_HA = some v1 → f.entry_CA = some v2 →
      0 < v1 → 0 < v2 → f.country ∈ countries_list →
      ∃ o, validate_form_and_create_spatial_visualizations f = .visualized o) := by
  refine ⟨?_, ?_, ?_, ?_⟩
  · intro h
    unfold validate_form_and_create_spatial_visualizations
    rcases h with h | h
    · rw [h]
    · rw [h]
      cases f.entry_HA <;> rfl
  · intro v1 v2 h1 h2 hle
    unfold validate_form_and_create_spatial_visualizations
    simp only [h1, h2]
    rw [if_pos hle]
  · intro v1 v2 h1 h2 hp1 hp2 hmem
    unfold validate_form_and_create_spatial_visualizations
    simp only [h1, h2]
    rw [if_neg (by push_neg; exact ⟨by linarith, by linarith⟩), if_pos hmem]
  · intro v1 v2 h1 h2 hp1 hp2 hmem
    obtain ⟨ca, hca⟩ :=
      exists_lookup_of_mem_keys (mem_countries_list_iff.mp hmem)
    refine ⟨{ h_to_c := pyround (convert_city_area v2 f.ca_unit / convert_house_area v1 f.ha_unit)
              c_to_w := pyround (world_area / convert_city_area v2 f.ca_unit)
              c_to_c := pyround (ca * 1000000 / convert_city_area v2 f.ca_unit) }, ?_⟩
    unfold validate_form_and_create_spatial_visualizations
    simp only [h1, h2]
    rw [if_neg (by push_neg; exact ⟨by linarith, by linarith⟩),
      if_neg (not_not_intro hmem)]
    unfold create_spatial_visualizations
    simp only [h1, h2, hca]

theorem validate_form_behaviour_witness :
    validate_form_and_create_spatial_visualizations
        ⟨none, some 5, "sq. yards", "sq. kms", "Monaco"⟩ =
      .warning "Please enter numeric area values" ∧
    validate_form_and_create_spatial_visualizations
        ⟨some (-3), some 5, "sq. yards", "sq. kms", "Monaco"⟩ =
      .warning "Please enter positive area values" ∧
    validate_form_and_create_spatial_visualizations
        ⟨some 3, some 5, "sq. yards", "sq. kms", "Atlantis"⟩ =
      .warning "Please select a country-name from the dropdown list" ∧
    ∃ o, validate_form_and_create_spatial_visualizations
        ⟨some 3, some 5, "sq. yards", "sq. kms", "Monaco"⟩ = .visualized o := by
  refine ⟨?_, ?_, ?_, ?_⟩
  · exact (validate_form_behaviour _).1 (Or.inl rfl)
  · exact (validate_form_behaviour _).2.1 (-3) 5 rfl rfl (Or.inl (by norm_num))
  · refine (validate_form_behaviour _).2.2.1 3 5 rfl rfl (by norm_num) (by norm_num) ?_
    rw [mem_countries_list_iff]
    decide
  · refine (validate_form_behaviour _).2.2.2 3 5 rfl rfl (by norm_num) (by norm_num) ?_
    rw [mem_countries_list_iff]
    decide

/-- C2: the grid planner computes `height = round(sqrt(ratio / aspectRatio))`
and then `width = round(aspectRatio * height)`, in that order, with the width
derived from the already-rounded height; the rounding really is
nearest-integer: the height is within `1/2` of the exact real square root and
the width within `1/2` of `aspectRatio * height`. -/
theorem gridplan_formula (ratio aspect : ℚ) (hr : 0 < ratio) (ha : 0 < aspect) :
    gridheight ratio aspect = roundSqrt (ratio / aspect) ∧
    gridwidth ratio aspect = pyround (aspect * (gridheight ratio aspect : ℚ)) ∧
    |(gridheight ratio aspect : ℝ) - Real.sqrt ((ratio : ℝ) / (aspect : ℝ))| ≤ 1/2 ∧
    |(gridwidth ratio aspect : ℚ) - aspect * (gridheight ratio aspect : ℚ)| ≤ 1/2 := by
  refine ⟨rfl, rfl, ?_, ?_⟩
  · have h := roundSqrt_dist_sqrt (q := ratio / aspect) (by positivity)
    have hc : ((ratio / aspect : ℚ) : ℝ) = (ratio : ℝ) / (aspect : ℝ) := by
      push_cast
      ring
    rw [hc] at h
    exact h
  · have h1 := pyround_le (aspect * (gridheight ratio aspect : ℚ))
    have h2 := le_pyround (aspect * (gridheight ratio aspect : ℚ))
    rw [abs_le]
    unfold gridwidth
    constructor <;> linarith

theorem gridplan_formula_witness :
    (0 : ℚ) < 385000 ∧ (0 : ℚ) < 16/9 ∧
    |(gridheight 385000 (16/9) : ℝ) - Real.sqrt ((385000 : ℝ) / ((16/9 : ℚ) : ℝ))| ≤ 1/2 :=
  ⟨by norm_num, by norm_num,
    (gridplan_formula 385000 (16/9) (by norm_num) (by norm_num)).2.2.1⟩

/-- C3 counterexample: at ratio 1 (which is ≥ 1) and positive display aspect
ratio 5 the planner returns height 0 and width 0, refuting
`width, height ≥ 1` for every positive aspect ratio. -/
theorem gridplan_dims_can_vanish :
    (1 : ℚ) ≤ 1 ∧ (0 : ℚ) < 5 ∧ gridheight 1 5 = 0 ∧ gridwidth 1 5 = 0 := by
  have hh : gridheight 1 5 = 0 := by
    unfold gridheight
    exact roundSqrt_eq_of 0 (by norm_num) (Or.inl rfl) (by norm_num)
  refine ⟨le_refl _, by norm_num, hh, ?_⟩
  unfold gridwidth
  rw [hh]
  rw [show ((5 : ℚ) * ((0 : ℕ) : ℚ)) = ((0 : ℤ) : ℚ) by norm_num]
  exact pyround_intCast 0

/-- C3 (amended): `width, height ≥ 1` holds for every ratio ≥ 1 once the
aspect ratio is constrained to `1/2 < aspect < 4 * ratio` (the counterexample
shows some constraint is forced); and for landscape aspect ratios in `[1, 3]`
and ratios ≥ 10000 the approximation error `|width*height - ratio|` is within
3 percent of the ratio, the bound coming from the two half-unit roundings. -/
theorem gridplan_dims_amended (ratio aspect : ℚ) (h1 : 1 ≤ ratio)
    (h2 : 1/2 < aspect) (h3 : aspect < 4 * ratio) :
    (1 ≤ gridheight ratio aspect ∧ 1 ≤ gridwidth ratio aspect) ∧
    (1 ≤ aspect → aspect ≤ 3 → 10000 ≤ ratio →
      |(gridwidth ratio aspect : ℚ) * (gridheight ratio aspect : ℚ) - ratio|
        ≤ 3/100 * ratio) := by
  have ha0 : (0:ℚ) < aspect := by linarith
  have hr0 : (0:ℚ) < ratio := by linarith
  have hq : 1/4 < ratio / aspect := by
    rw [lt_div_iff₀ ha0]
    linarith
  have hh : 1 ≤ gridheight ratio aspect := by
    unfold gridheight
    exact one_le_roundSqrt hq
  have hhQ : (1:ℚ) ≤ (gridheight ratio aspect : ℚ) := by exact_mod_cast hh
  have hw : 1 ≤ gridwidth ratio aspect := by
    unfold gridwidth
    apply one_le_pyround
    nlinarith
  refine ⟨⟨hh, hw⟩, ?_⟩
  intro ha1 ha3 hr4
  set H : ℚ := (gridheight ratio aspect : ℚ) with hHdef
  set W : ℚ := (gridwidth ratio aspect : ℚ) with hWdef
  have hq0 : (0:ℚ) < ratio / aspect := by positivity
  have hh' : 1 ≤ roundSqrt (ratio / aspect) := hh
  have hlowH : (2 * H - 1)^2 ≤ 4 * (ratio / aspect) := roundSqrt_lower hq0 hh'
  have hupH : 4 * (ratio / aspect) ≤ (2 * H + 1)^2 := roundSqrt_upper hq0
  have hdiv : aspect * (4 * (ratio / aspect)) = 4 * ratio := by field_simp
  have hlow4 : aspect * (2 * H - 1)^2 ≤ 4 * ratio := by
    calc aspect * (2 * H - 1)^2 ≤ aspect * (4 * (ratio / aspect)) :=
          mul_le_mul_of_nonneg_left hlowH (le_of_lt ha0)
    _ = 4 * ratio := hdiv
  have hup4 : 4 * ratio ≤ aspect * (2 * H + 1)^2 := by
    calc 4 * ratio = aspect * (4 * (ratio / aspect)) := hdiv.symm
    _ ≤ aspect * (2 * H + 1)^2 := mul_le_mul_of_nonneg_left hupH (le_of_lt ha0)
  have hWle : W ≤ aspect * H + 1/2 := pyround_le _
  have hWge : aspect * H - 1/2 ≤ W := le_pyround _
  have hH1 : 1 ≤ H := hhQ
  have hHnn : 0 ≤ H := by linarith
  have hlow4' : 4 * (aspect * H^2) - 4 * (aspect * H) + aspect ≤ 4 * ratio := by
    have hexp : aspect * (2 * H - 1)^2
        = 4 * (aspect * H^2) - 4 * (aspect * H) + aspect := by ring
    linarith [hlow4]
  have hup4' : 4 * ratio ≤ 4 * (aspect * H^2) + 4 * (aspect * H) + aspect := by
    have hexp : aspect * (2 * H + 1)^2
        = 4 * (aspect * H^2) + 4 * (aspect * H) + aspect := by ring
    linarith [hup4]
  have key_up : W * H - ratio ≤ aspect * H + aspect/4 + H/2 := by
    have e1 : 0 ≤ (aspect * H + 1/2 - W) * H := mul_nonneg (by linarith) hHnn
    have e1' : (aspect * H + 1/2 - W) * H
        = aspect * H^2 + H/2 - W * H := by ring
    linarith [hlow4']
  have key_lo : ratio - W * H ≤ aspect * H + aspect/4 + H/2 := by
    have e1 : 0 ≤ (W - (aspect * H - 1/2)) * H := mul_nonneg (by linarith) hHnn
    have e1' : (W - (aspect * H - 1/2)) * H
        = W * H - aspect * H^2 + H/2 := by ring
    linarith [hup4']
  have hbound : aspect * H + aspect/4 + H/2 ≤ 3/100 * ratio := by
    have c1 : 0 ≤ aspect * (2 * H - 1)^2 := mul_nonneg (le_of_lt ha0) (sq_nonneg _)
    have c2 : aspect * (aspect * (2 * H - 1)^2) ≤ 12 * ratio := by
      have c2a : aspect * (aspect * (2 * H - 1)^2) ≤ 3 * (aspect * (2 * H - 1)^2) :=
        mul_le_mul_of_nonneg_right ha3 c1
      linarith [hlow4]
    have e3 : (aspect * (2 * H - 1))^2 ≤ 12 * ratio := by
      calc (aspect * (2 * H - 1))^2 = aspect * (aspect * (2 * H - 1)^2) := by ring
      _ ≤ 12 * ratio := c2
    have e4 : (2 * H - 1)^2 ≤ 4 * ratio := by
      have h4a : 0 ≤ (aspect - 1) * (2 * H - 1)^2 :=
        mul_nonneg (sub_nonneg.2 ha1) (sq_nonneg _)
      have h4b : (aspect - 1) * (2 * H - 1)^2
          = aspect * (2 * H - 1)^2 - (2 * H - 1)^2 := by ring
      linarith [hlow4]
    have hX : 692 * (aspect * (2 * H - 1)) ≤ 12 * ratio + 119716 := by
      have hs2 : 0 ≤ (aspect * (2 * H - 1) - 346)^2 := sq_nonneg _
      have hexp : (aspect * (2 * H - 1) - 346)^2
          = (aspect * (2 * H - 1))^2 - 692 * (aspect * (2 * H - 1)) + 119716 := by
        ring
      linarith [e3]
    have hX' : 692 * (2 * (aspect * H) - aspect) ≤ 12 * ratio + 119716 := by
      have hexp : aspect * (2 * H - 1) = 2 * (aspect * H) - aspect := by ring
      linarith [hX]
    have hY : 400 * (2 * H - 1) ≤ 4 * ratio + 40000 := by
      have hs2 : 0 ≤ (2 * H - 1 - 200)^2 := sq_nonneg _
      have hexp : (2 * H - 1 - 200)^2
          = (2 * H - 1)^2 - 400 * (2 * H - 1) + 40000 := by ring
      linarith [e4]
    linarith [hX', hY, ha3, hr4]
  rw [abs_le]
  constructor <;> linarith

theorem gridplan_dims_amended_witness :
    ((1:ℚ) ≤ 385000 ∧ (1:ℚ)/2 < 16/9 ∧ (16:ℚ)/9 < 4 * 385000 ∧
      (1:ℚ) ≤ 16/9 ∧ (16:ℚ)/9 ≤ 3 ∧ (10000:ℚ) ≤ 385000) ∧
    (1 ≤ gridheight 385000 (16/9) ∧ 1 ≤ gridwidth 385000 (16/9)) ∧
    |(gridwidth 385000 (16/9) : ℚ) * (gridheight 385000 (16/9) : ℚ) - 385000|
      ≤ 3/100 * 385000 := by
  have h := gridplan_dims_amended 385000 (16/9) (by norm_num) (by norm_num) (by norm_num)
  exact ⟨⟨by norm_num, by norm_num, by norm_num, by norm_num, by norm_num, by norm_num⟩,
    h.1, h.2 (by norm_num) (by norm_num) (by norm_num)⟩

/-- C4 counterexample: `subRatio ≤ ratio` alone does not keep the inset inside
the grid: with ratio = subRatio = 100 and aspect ratio 2 the inset side is 10
while the grid height is only 7. -/
theorem inset_can_exceed_grid :
    (100 : ℚ) ≤ 100 ∧ (0 : ℚ) < 2 ∧
    inset_width (some 100) = 10 ∧ gridheight 100 2 = 7 ∧
    ¬ (inset_width (some 100) ≤ gridheight 100 2) := by
  have hi : inset_width (some 100) = 10 := by
    show roundSqrt (100 : ℚ) = 10
    exact roundSqrt_eq_of 10 (by norm_num) (Or.inr (by norm_num)) (by norm_num)
  refine ⟨le_refl _, by norm_num, hi, gridheight_100_2_eval, ?_⟩
  rw [hi, gridheight_100_2_eval]
  omega

/-- Helper: the inset fits inside the grid (`insetSide ≤ height` and
`insetSide ≤ width`) whenever `aspect ≥ 1` and `aspect * subRatio < ratio`. -/
theorem inset_le_grid_dims (ratio aspect subr : ℚ) (ha : 1 ≤ aspect)
    (hs : 0 < subr) (hlt : aspect * subr < ratio) :
    inset_width (some subr) = roundSqrt subr ∧
    inset_width (some subr) ≤ gridheight ratio aspect ∧
    (inset_width (some subr) : ℤ) ≤ gridwidth ratio aspect := by
  have ha0 : (0:ℚ) < aspect := by linarith
  have hr0 : (0:ℚ) < ratio := lt_trans (by positivity) hlt
  have hq0 : (0:ℚ) < ratio / aspect := by positivity
  have hsq : subr < ratio / aspect := by
    rw [lt_div_iff₀ ha0]
    calc subr * aspect = aspect * subr := by ring
    _ < ratio := hlt
  have hih : roundSqrt subr ≤ roundSqrt (ratio / aspect) := by
    by_cases hi0 : roundSqrt subr = 0
    · rw [hi0]
      exact Nat.zero_le _
    · have hi1 : 1 ≤ roundSqrt subr := by omega
      have hlowi := roundSqrt_lower hs hi1
      have hup := roundSqrt_upper hq0
      have hi1Q : (1:ℚ) ≤ (roundSqrt subr : ℚ) := by exact_mod_cast hi1
      have hh0 : (0:ℚ) ≤ (roundSqrt (ratio / aspect) : ℚ) := Nat.cast_nonneg _
      have hlt2 : 2 * (roundSqrt subr : ℚ) - 1
          < 2 * (roundSqrt (ratio / aspect) : ℚ) + 1 := by
        nlinarith [hlowi, hup, hsq]
      have hcast : (roundSqrt subr : ℚ) < (roundSqrt (ratio / aspect) : ℚ) + 1 := by
        linarith
      have hnat : roundSqrt subr < roundSqrt (ratio / aspect) + 1 := by
        exact_mod_cast hcast
      omega
  have hhw : ((gridheight ratio aspect : ℕ) : ℤ) ≤ gridwidth ratio aspect := by
    have hmul : ((gridheight ratio aspect : ℕ) : ℚ)
        ≤ aspect * ((gridheight ratio aspect : ℕ) : ℚ) := by
      nlinarith [Nat.cast_nonneg (α := ℚ) (gridheight ratio aspect)]
    have hmono := pyround_mono hmul
    rw [pyround_natCast] at hmono
    exact hmono
  refine ⟨rfl, hih, ?_⟩
  calc (inset_width (some subr) : ℤ) ≤ (gridheight ratio aspect : ℤ) := by
        exact_mod_cast hih
  _ ≤ gridwidth ratio aspect := hhw

/-- Helper: the planned grid width is never negative. -/
theorem gridwidth_nonneg (ratio aspect : ℚ) (ha : 0 ≤ aspect) :
    0 ≤ gridwidth ratio aspect := by
  unfold gridwidth
  have h := le_pyround (aspect * (gridheight ratio aspect : ℚ))
  have hnn : (0:ℚ) ≤ aspect * (gridheight ratio aspect : ℚ) :=
    mul_nonneg ha (Nat.cast_nonneg _)
  by_contra hneg
  push_neg at hneg
  have h1 : pyround (aspect * (gridheight ratio aspect : ℚ)) ≤ -1 := by omega
  have h2 : (pyround (aspect * (gridheight ratio aspect : ℚ)) : ℚ) ≤ -1 := by
    exact_mod_cast h1
  linarith

/-- Helper: a property of all values of an association list holds for any
value `lookup` returns. -/
theorem lookup_of_forall {l : List (String × ℚ)} {P : ℚ → Prop}
    (hall : ∀ p ∈ l, P p.2) :
    ∀ {c : String} {ca : ℚ}, l.lookup c = some ca → P ca := by
  induction l with
  | nil =>
    intro c ca h
    simp [List.lookup] at h
  | cons p t ih =>
    intro c ca h
    by_cases hc : c = p.1
    · simp [List.lookup, hc] at h
      rw [← h]
      exact hall p (List.mem_cons_self p t)
    · simp [List.lookup, beq_eq_false_iff_ne.mpr hc] at h
      exact ih (fun q hq => hall q (List.mem_cons_of_mem p hq)) h

set_option maxRecDepth 40000 in
/-- Every area in the country table is positive and at most Russia's
17,098,242 square kilometers. -/
theorem country_areas_bounds : ∀ p ∈ country_areas, 0 < p.2 ∧ p.2 ≤ 17098242 := by
  decide

/-- C4: the inset side length equals `round(sqrt(subRatio))`; it satisfies
`insetSide ≤ min(width, height)` whenever `aspect ≥ 1` and
`aspect * subRatio < ratio` (the counterexample shows `subRatio ≤ ratio`
alone is not enough), and both production call sites satisfy this for every
landscape aspect ratio in `[1, 3]`: the hourly-in-daily insets
(births `16041` in `385000` and deaths `6875` in `165000`) unconditionally,
and the city-in-country inset inside the city-in-world grid for every country
of the table and every positive converted city area up to
`200000000 * 1000000` m². -/
theorem inset_within_grid_call_sites :
    (∀ s : ℚ, inset_width (some s) = roundSqrt s) ∧
    (∀ ratio aspect subr : ℚ, 1 ≤ aspect → 0 < subr → aspect * subr < ratio →
      inset_width (some subr) ≤ gridheight ratio aspect ∧
      (inset_width (some subr) : ℤ) ≤ gridwidth ratio aspect) ∧
    (∀ aspect : ℚ, 1 ≤ aspect → aspect ≤ 3 →
      (inset_width (some (hourly_births : ℚ)) ≤ gridheight (DAILY_BIRTHS : ℚ) aspect ∧
        (inset_width (some (hourly_births : ℚ)) : ℤ) ≤ gridwidth (DAILY_BIRTHS : ℚ) aspect) ∧
      (inset_width (some (hourly_deaths : ℚ)) ≤ gridheight (DAILY_DEATHS : ℚ) aspect ∧
        (inset_width (some (hourly_deaths : ℚ)) : ℤ) ≤ gridwidth (DAILY_DEATHS : ℚ) aspect)) ∧
    (∀ (country : String) (ca city_m2 aspect : ℚ),
      country_areas.lookup country = some ca →
      0 < city_m2 → city_m2 ≤ 200000000 * 1000000 → 1 ≤ aspect → aspect ≤ 3 →
      inset_width (some ((pyround (ca * 1000000 / city_m2) : ℤ) : ℚ))
          ≤ gridheight ((pyround (world_area / city_m2) : ℤ) : ℚ) aspect ∧
      (inset_width (some ((pyround (ca * 1000000 / city_m2) : ℤ) : ℚ)) : ℤ)
          ≤ gridwidth ((pyround (world_area / city_m2) : ℤ) : ℚ) aspect) := by
  have eb : (hourly_births : ℚ) = 16041 := by
    rw [show hourly_births = 16041 from rfl]
    norm_num
  have ed : (hourly_deaths : ℚ) = 6875 := by
    rw [show hourly_deaths = 6875 from rfl]
    norm_num
  have eB : (DAILY_BIRTHS : ℚ) = 385000 := by
    rw [show DAILY_BIRTHS = 385000 from rfl]
    norm_num
  have eD : (DAILY_DEATHS : ℚ) = 165000 := by
    rw [show DAILY_DEATHS = 165000 from rfl]
    norm_num
  refine ⟨fun s => rfl, ?_, ?_, ?_⟩
  · intro ratio aspect subr h1 h2 h3
    exact ⟨(inset_le_grid_dims ratio aspect subr h1 h2 h3).2.1,
      (inset_le_grid_dims ratio aspect subr h1 h2 h3).2.2⟩
  · intro aspect ha1 ha3
    rw [eb, ed, eB, eD]
    constructor
    · have h := inset_le_grid_dims 385000 aspect 16041 ha1 (by norm_num)
        (by linarith)
      exact ⟨h.2.1, h.2.2⟩
    · have h := inset_le_grid_dims 165000 aspect 6875 ha1 (by norm_num)
        (by linarith)
      exact ⟨h.2.1, h.2.2⟩
  · intro country ca x aspect hlk hx hx2 ha1 ha3
    have hca := @lookup_of_forall country_areas
      (fun v => 0 < v ∧ v ≤ 17098242) country_areas_bounds country ca hlk
    have hxne : x ≠ 0 := ne_of_gt hx
    by_cases hs : (0:ℚ) < ((pyround (ca * 1000000 / x) : ℤ) : ℚ)
    · -- the rounded country ratio is positive: the strict premise holds
      have hsle : ((pyround (ca * 1000000 / x) : ℤ) : ℚ)
          ≤ ca * 1000000 / x + 1/2 := pyround_le _
      have hrge : world_area / x - 1/2 ≤ ((pyround (world_area / x) : ℤ) : ℚ) :=
        le_pyround _
      have hstep : 3 * (ca * 1000000 / x) + 2 < world_area / x := by
        have hnum : 0 < (world_area - 3 * (ca * 1000000) - 2 * x) / x := by
          apply div_pos _ hx
          unfold world_area
          nlinarith [hca.2, hx2]
        have hexp : (world_area - 3 * (ca * 1000000) - 2 * x) / x
            = world_area / x - 3 * (ca * 1000000 / x) - 2 := by
          field_simp
          ring
        linarith [hnum, hexp.symm.le, hexp.le]
      have hmul3 : aspect * ((pyround (ca * 1000000 / x) : ℤ) : ℚ)
          ≤ 3 * ((pyround (ca * 1000000 / x) : ℤ) : ℚ) := by
        have h0 := mul_nonneg (sub_nonneg.2 ha3) hs.le
        have hr : (3 - aspect) * ((pyround (ca * 1000000 / x) : ℤ) : ℚ)
            = 3 * ((pyround (ca * 1000000 / x) : ℤ) : ℚ)
              - aspect * ((pyround (ca * 1000000 / x) : ℤ) : ℚ) := by ring
        linarith
      have hkey : aspect * ((pyround (ca * 1000000 / x) : ℤ) : ℚ)
          < ((pyround (world_area / x) : ℤ) : ℚ) := by
        calc aspect * ((pyround (ca * 1000000 / x) : ℤ) : ℚ)
            ≤ 3 * ((pyround (ca * 1000000 / x) : ℤ) : ℚ) := hmul3
        _ ≤ 3 * (ca * 1000000 / x + 1/2) := by linarith
        _ = 3 * (ca * 1000000 / x) + 3/2 := by ring
        _ < world_area / x - 1/2 := by linarith
        _ ≤ ((pyround (world_area / x) : ℤ) : ℚ) := hrge
      have h := inset_le_grid_dims _ aspect _ ha1 hs hkey
      exact ⟨h.2.1, h.2.2⟩
    · -- the rounded country ratio is ≤ 0: the inset is empty
      push_neg at hs
      have h0 : inset_width (some ((pyround (ca * 1000000 / x) : ℤ) : ℚ)) = 0 := by
        show roundSqrt ((pyround (ca * 1000000 / x) : ℤ) : ℚ) = 0
        unfold roundSqrt
        rw [if_pos hs]
      rw [h0]
      refine ⟨Nat.zero_le _, ?_⟩
      have := gridwidth_nonneg ((pyround (world_area / x) : ℤ) : ℚ) aspect
        (by linarith)
      simpa using this

theorem inset_within_grid_call_sites_witness :
    ((1:ℚ) ≤ 16/9 ∧ (16:ℚ)/9 ≤ 3 ∧
      country_areas.lookup "Singapore" = some 710 ∧
      (0:ℚ) < 50000000 ∧ (50000000:ℚ) ≤ 200000000 * 1000000) ∧
    inset_width (some (hourly_births : ℚ)) ≤ gridheight (DAILY_BIRTHS : ℚ) (16/9) ∧
    inset_width (some (hourly_deaths : ℚ)) ≤ gridheight (DAILY_DEATHS : ℚ) (16/9) ∧
    inset_width (some ((pyround ((710:ℚ) * 1000000 / 50000000) : ℤ) : ℚ))
        ≤ gridheight ((pyround (world_area / 50000000) : ℤ) : ℚ) (16/9) := by
  refine ⟨⟨by norm_num, by norm_num, rfl, by norm_num, by norm_num⟩, ?_, ?_, ?_⟩
  · exact ((inset_within_grid_call_sites.2.2.1 (16/9) (by norm_num) (by norm_num)).1).1
  · exact ((inset_within_grid_call_sites.2.2.1 (16/9) (by norm_num) (by norm_num)).2).1
  · exact (inset_within_grid_call_sites.2.2.2 "Singapore" 710 50000000 (16/9) rfl
      (by norm_num) (by norm_num) (by norm_num) (by norm_num)).1

end ContextualVisualizer
